import Mathlib

/-!
Verification of the MedDocExtractor resilient-extraction client.

The repository has two variants of the extraction pipeline:
* `src/unnamed/part_000` — the multimodal variant: a single Gemini call made
  through `fetchWithRetry` (exponential backoff with jitter), whose envelope
  text is parsed as JSON with `transcribedText` and `structuredData` keys.
* `src/app/page.js` — the two-stage variant: a Vision OCR call followed by a
  Gemini structuring call, both made with a bare `fetch` (no retry wrapper).

The embedding models JSON values, HTTP responses and thrown JS errors
explicitly; `fetch` and `Math.random()*1000` are platform primitives and are
modelled as oracles (a function from the attempt index to the outcome of that
fetch, and a function from the attempt index to the jitter drawn there).
`JSON.parse` is likewise a platform primitive, modelled as an abstract
`String → Option Json` parameter (`none` = parse throws a SyntaxError).
-/

/-- A JSON value, as produced by `response.json()` / `JSON.parse`. -/
inductive Json where
  | null
  | bool (b : Bool)
  | num (n : Int)
  | str (s : String)
  | arr (xs : List Json)
  | obj (fields : List (String × Json))

namespace Json

/-- JS property access `j.k` : yields the field's value, `none` = undefined.
In JS, property access on `null`/`undefined` throws a TypeError; every access
modelled through this function is behind an optional chain or on a value the
source has already checked, except where noted at the call site. -/
def getField : Json → String → Option Json
  | .obj fields, k => (fields.find? (fun p => p.1 == k)).map (fun p => p.2)
  | _, _ => none

/-- JS index access `j[i]` on an array, `none` = undefined. (On a non-array
object JS would look up the property named by the index; the API envelopes
the claims concern are arrays or absent, so that case is collapsed to
undefined.) -/
def getIndex : Json → Nat → Option Json
  | .arr xs, i => xs[i]?
  | _, _ => none

/-- The value, when it is a JSON string. -/
def asString : Json → Option String
  | .str s => some s
  | _ => none

/-- JS truthiness of a JSON value. -/
def truthy : Json → Bool
  | .null => false
  | .bool b => b
  | .num n => n != 0
  | .str s => s != ""
  | .arr _ => true
  | .obj _ => true

/-- Whether an object carries the given key (`undefined` check on a field). -/
def hasKey (j : Json) (k : String) : Bool := (j.getField k).isSome

end Json

/-- JS string coercion of a JSON value, used where the source feeds a value
into a template literal or `JSON.parse`. Only the string case is exercised by
the claims; the other cases approximate JS `String(x)` and are unreachable
under the backend envelope contract (`parts[0].text` is a string). -/
def jsCoerceToString : Json → String
  | .str s => s
  | .num n => toString n
  | .bool b => toString b
  | .null => "null"
  | .arr _ => ""
  | .obj _ => "object Object"

/-- An HTTP response as seen by the source: its status code and its JSON body
(the source always consumes the body through `response.json()`, so the body is
modelled directly as a `Json` value). -/
structure Response where
  status : Nat
  body : Json

/-- `response.ok` : status in the 2xx range [200, 300). -/
def responseOk (s : Nat) : Prop := 200 ≤ s ∧ s < 300

instance (s : Nat) : Decidable (responseOk s) :=
  inferInstanceAs (Decidable (200 ≤ s ∧ s < 300))

/-- The outcome of one `fetch(url, options)` call: either a `Response`, or a
network-level exception (connection reset etc.), which carries a message but
no HTTP status. -/
inductive FetchStep where
  | response (r : Response)
  | throw (msg : String)

/-- A thrown JS `Error`: its `.message`, and its `.status` property when one
was attached (the source attaches `error.status = response.status` only on
the transient path of `fetchWithRetry`). -/
structure JsError where
  message : String
  status : Option Nat

/-- The server-provided error message `errorData.error?.message` read from an
error-response body. Restricted to string-valued messages, which is what the
Google APIs return; a non-string message would be template-coerced by JS but
is never exercised. -/
def serverErrorMessage (body : Json) : Option String :=
  ((body.getField "error").bind (fun e => e.getField "message")).bind Json.asString

/-- JS `x || "Unknown error"` on the optional server message: any falsy value
(absent, or the empty string) falls back to the generic message. -/
def orUnknown : Option String → String
  | some s => if s = "" then "Unknown error" else s
  | none => "Unknown error"

/-- The user-facing message `fetchWithRetry` throws once the retry budget is
exhausted on transient statuses; it interpolates the last HTTP status. -/
def transientMessage (status : Nat) : String :=
  "The AI service is temporarily unavailable (Error " ++ toString status ++
    "). Please try again in a few moments."

/-- The observable outcome of one `fetchWithRetry` call: its result (the
returned `Response` or the thrown `JsError`), how many `fetch` calls it made,
and the list of backoff delays (in ms, as exact rationals) it awaited, in
order. -/
structure RetryTrace where
  result : Except JsError Response
  numCalls : Nat
  delays : List ℚ

/-- The body of `fetchWithRetry`'s `for (let i = 0; i < retries; i++)` loop
(src/unnamed/part_000, lines 181–236), entered at loop index `i`.

* a network-level exception from `fetch` has no `.status`, so the
  `if (!error.status) throw lastError;` branch rethrows it at once;
* status ≥ 500 or 429 throws an error with `.status` attached; on the last
  iteration (`i === retries - 1`) the loop breaks and, `lastError.status`
  being set, the user-facing transient message (carrying that status) is
  thrown; otherwise the loop awaits `2**i * 1000 + Math.random()*1000` ms
  (`jitter i` models the `Math.random()*1000` draw) and retries;
* any other non-ok status throws `API error: ...` without `.status`, which
  the catch block rethrows at once;
* an ok response is returned.

The `i ≥ retries` branch is the loop exiting without any attempt, reachable
only when `fetchWithRetry` is called with `retries = 0`: there `lastError` is
still `undefined` and reading `lastError.status` raises a TypeError. -/
def fetchLoop (fetch : Nat → FetchStep) (jitter : Nat → ℚ) (retries : Nat)
    (i : Nat) : RetryTrace :=
  if h : i < retries then
    match fetch i with
    | .throw msg =>
        { result := .error { message := msg, status := none },
          numCalls := 1, delays := [] }
    | .response r =>
        if 500 ≤ r.status ∨ r.status = 429 then
          if i = retries - 1 then
            { result := .error { message := transientMessage r.status, status := none },
              numCalls := 1, delays := [] }
          else
            let rest := fetchLoop fetch jitter retries (i + 1)
            { result := rest.result,
              numCalls := rest.numCalls + 1,
              delays := ((2 : ℚ) ^ i * 1000 + jitter i) :: rest.delays }
        else if responseOk r.status then
          { result := .ok r, numCalls := 1, delays := [] }
        else
          { result := .error
              { message := "API error: " ++ orUnknown (serverErrorMessage r.body),
                status := none },
            numCalls := 1, delays := [] }
  else
    { result := .error
        { message := "TypeError: cannot read properties of undefined", status := none },
      numCalls := 0, delays := [] }
termination_by retries - i
decreasing_by omega

/-- `fetchWithRetry(url, options, retries)` from src/unnamed/part_000; the
source's default retry budget is `retries = 4`, which is what its only call
site uses. -/
def fetchWithRetry (fetch : Nat → FetchStep) (jitter : Nat → ℚ)
    (retries : Nat) : RetryTrace :=
  fetchLoop fetch jitter retries 0

/-- The navigation `data.candidates?.[0]?.content?.parts?.[0]?.text` used by
both variants to pull the generated text out of the Gemini envelope; `none` =
undefined at some step of the optional chain. -/
def envelopeText (body : Json) : Option Json :=
  (((((body.getField "candidates").bind (fun c => c.getIndex 0)).bind
      (fun c => c.getField "content")).bind
      (fun c => c.getField "parts")).bind
      (fun p => p.getIndex 0)).bind
      (fun p => p.getField "text")

/-- A lookup-table stub standing in for the platform `JSON.parse` in concrete
scenarios: strings found in the table parse to the associated value, all
others fail to parse. -/
def parseStub (table : List (String × Json)) : String → Option Json :=
  fun s => (table.find? (fun p => p.1 == s)).map (fun p => p.2)

namespace Multimodal

/-- What the multimodal `extractMedicalDataWithGemini` returns on success:
`parsedJson.transcribedText` and `parsedJson.structuredData`, each `none`
(JS `undefined`) when the parsed JSON lacks the key. -/
structure GeminiResult where
  extractedText : Option Json
  extractedData : Option Json

/-- The observable outcome of one multimodal `extractMedicalDataWithGemini`
call: its result or thrown error, plus the fetch-call count and backoff
delays of the underlying `fetchWithRetry`. -/
structure ExtractTrace where
  result : Except JsError GeminiResult
  numCalls : Nat
  delays : List ℚ

/-- The response-processing tail of `extractMedicalDataWithGemini` from
src/unnamed/part_000 (lines 152–170), applied to the body of the 2xx response
returned by `fetchWithRetry`: reads the envelope's nested text, rejects a
missing-or-falsy text with the invalid-structure error, then `JSON.parse`s
the text; a parse failure throws the fixed not-valid-JSON message (the raw
text goes only to `console.error`, not into the error); on success the
`transcribedText` / `structuredData` fields are returned with no further
validation. A truthy non-string text value would be string-coerced by
`JSON.parse`; the envelope contract makes the text a string. -/
def parseGeminiBody (parseJson : String → Option Json) (body : Json) :
    Except JsError GeminiResult :=
  match envelopeText body with
  | some (.str s) =>
    if s = "" then
      .error { message := "Invalid response structure from Gemini API.", status := none }
    else
      match parseJson s with
      | none =>
        .error { message := "Gemini API did not return valid JSON. See raw text for details.",
                 status := none }
      | some parsedJson =>
        .ok { extractedText := parsedJson.getField "transcribedText",
              extractedData := parsedJson.getField "structuredData" }
  | some other =>
    if other.truthy then
      match parseJson (jsCoerceToString other) with
      | none =>
        .error { message := "Gemini API did not return valid JSON. See raw text for details.",
                 status := none }
      | some parsedJson =>
        .ok { extractedText := parsedJson.getField "transcribedText",
              extractedData := parsedJson.getField "structuredData" }
    else
      .error { message := "Invalid response structure from Gemini API.", status := none }
  | none =>
    .error { message := "Invalid response structure from Gemini API.", status := none }

/-- `extractMedicalDataWithGemini` from src/unnamed/part_000 (lines 84–171):
calls `fetchWithRetry` (with the source's default budget of 4), propagates a
thrown transport error, and otherwise processes the returned response's body
with `parseGeminiBody`. The fetch-call count and backoff delays are those of
the underlying transport, which is where all network activity happens. -/
def extractMedicalDataWithGemini (parseJson : String → Option Json)
    (fetch : Nat → FetchStep) (jitter : Nat → ℚ) : ExtractTrace :=
  let t := fetchWithRetry fetch jitter 4
  { result :=
      match t.result with
      | .error e => .error e
      | .ok r => parseGeminiBody parseJson r.body,
    numCalls := t.numCalls,
    delays := t.delays }

/-- The selected file: its raw bytes and MIME type. (`toBase64` is a pure
encoding step with no control-flow effect, so the bytes are carried
directly.) -/
structure File where
  bytes : List Nat
  mimeType : String

/-- The UI-observable outcome of `handleProcessClick`: the error message
shown (`""` when none), the raw-text and structured-data panels, and how many
network calls were made. -/
structure ClickTrace where
  errorMessage : String
  rawText : Option Json
  structuredData : Option Json
  networkCalls : Nat

/-- `handleProcessClick` from src/unnamed/part_000 (lines 40–75): a missing
file (`!file`) or an empty API key (`!apiKey`) sets a precondition message
and returns before any network activity; otherwise the extraction runs and
either populates the result panels or surfaces `error.message` (with the
generic fallback when the message is falsy). Note the file check is JS
truthiness of the `File` object: any selected file object — even one with
zero bytes — passes it. -/
def handleProcessClick (parseJson : String → Option Json)
    (fetch : Nat → FetchStep) (jitter : Nat → ℚ)
    (file : Option File) (apiKey : String) : ClickTrace :=
  match file with
  | none =>
    { errorMessage := "Please upload a file first.",
      rawText := none, structuredData := none, networkCalls := 0 }
  | some _ =>
    if apiKey = "" then
      { errorMessage := "Please enter your Google AI API key.",
        rawText := none, structuredData := none, networkCalls := 0 }
    else
      let t := extractMedicalDataWithGemini parseJson fetch jitter
      match t.result with
      | .ok r =>
        { errorMessage := "", rawText := r.extractedText,
          structuredData := r.extractedData, networkCalls := t.numCalls }
      | .error e =>
        { errorMessage := if e.message = "" then "An unknown error occurred." else e.message,
          rawText := none, structuredData := none, networkCalls := t.numCalls }

end Multimodal

namespace TwoStage

/-- The observable outcome of one stage of the two-stage pipeline: its result
or thrown error, the number of `fetch` calls the stage made, and the backoff
delays it awaited (the source of this variant contains no retry loop and no
`setTimeout`, so the definitions below always record one call and no
delays). -/
structure StageTrace (α : Type) where
  result : Except JsError α
  numCalls : Nat
  delays : List ℚ

/-- `detectTextWithVisionAPI` from src/app/page.js (lines 83–116): one bare
`fetch`; a non-ok status throws the Vision error message immediately; on a
2xx response `data.responses[0]?.textAnnotations` is read (an absent or null
`responses` would make the unguarded `[0]` index raise a TypeError), a falsy
or empty annotations list throws the no-text error, else the first
annotation's `description` field is returned (undefined when absent). A
truthy non-array annotations value would be indexed value-dependently by JS
and is collapsed to a TypeError marker; the Vision envelope contract makes it
an array or absent. -/
def detectTextWithVisionAPI (step : FetchStep) : StageTrace (Option Json) :=
  match step with
  | .throw msg =>
    { result := .error { message := msg, status := none }, numCalls := 1, delays := [] }
  | .response r =>
    if responseOk r.status then
      match r.body.getField "responses" with
      | none =>
        { result := .error
            { message := "TypeError: cannot read properties of undefined", status := none },
          numCalls := 1, delays := [] }
      | some .null =>
        { result := .error
            { message := "TypeError: cannot read properties of null", status := none },
          numCalls := 1, delays := [] }
      | some responses =>
        match (responses.getIndex 0).bind (fun x => x.getField "textAnnotations") with
        | none =>
          { result := .error
              { message := "No text found in the document by Vision API.", status := none },
            numCalls := 1, delays := [] }
        | some ta =>
          if ta.truthy then
            match ta with
            | .arr [] =>
              { result := .error
                  { message := "No text found in the document by Vision API.", status := none },
                numCalls := 1, delays := [] }
            | .arr (a :: _) =>
              { result := .ok (a.getField "description"), numCalls := 1, delays := [] }
            | _ =>
              { result := .error
                  { message := "TypeError: cannot index a non-array value", status := none },
                numCalls := 1, delays := [] }
          else
            { result := .error
                { message := "No text found in the document by Vision API.", status := none },
              numCalls := 1, delays := [] }
    else
      { result := .error
          { message := "Vision API error: " ++ orUnknown (serverErrorMessage r.body),
            status := none },
        numCalls := 1, delays := [] }

/-- The response-processing tail of the two-stage
`extractMedicalDataWithGemini` from src/app/page.js (lines 175–189), applied
to a 2xx response body: reads the envelope's nested text, rejects a falsy
text with the invalid-structure error, and `JSON.parse`s the text; a parse
failure throws the fixed not-valid-JSON message (the raw text goes only to
`console.error`); on success the entire parsed JSON value is returned. -/
def parseGeminiWhole (parseJson : String → Option Json) (body : Json) :
    Except JsError Json :=
  match envelopeText body with
  | some (.str s) =>
    if s = "" then
      .error { message := "Invalid response structure from Gemini API.", status := none }
    else
      match parseJson s with
      | none =>
        .error { message := "Gemini API did not return valid JSON. See raw text for details.",
                 status := none }
      | some parsedJson => .ok parsedJson
  | some other =>
    if other.truthy then
      match parseJson (jsCoerceToString other) with
      | none =>
        .error { message := "Gemini API did not return valid JSON. See raw text for details.",
                 status := none }
      | some parsedJson => .ok parsedJson
    else
      .error { message := "Invalid response structure from Gemini API.", status := none }
  | none =>
    .error { message := "Invalid response structure from Gemini API.", status := none }

/-- `extractMedicalDataWithGemini` from src/app/page.js (lines 123–190): one
bare `fetch` (the stage makes exactly one call and never sleeps); a non-ok
status throws the Gemini error message immediately; a 2xx response's body is
processed with `parseGeminiWhole`. -/
def extractMedicalDataWithGemini (parseJson : String → Option Json)
    (step : FetchStep) : StageTrace Json :=
  match step with
  | .throw msg =>
    { result := .error { message := msg, status := none }, numCalls := 1, delays := [] }
  | .response r =>
    if responseOk r.status then
      { result := parseGeminiWhole parseJson r.body, numCalls := 1, delays := [] }
    else
      { result := .error
          { message := "Gemini API error: " ++ orUnknown (serverErrorMessage r.body),
            status := none },
        numCalls := 1, delays := [] }

end TwoStage

/-- A concrete 404-style error body carrying a server message. -/
def notFoundBody : Json := .obj [("error", .obj [("message", .str "Not Found")])]

/-- A well-formed Gemini success envelope wrapping the given text value at
`candidates[0].content.parts[0].text`. -/
def geminiEnvelope (t : Json) : Json :=
  .obj [("candidates",
    .arr [.obj [("content", .obj [("parts", .arr [.obj [("text", t)]])])]])]

/-- A concrete text payload that no JSON parser accepts. -/
def garbageText : String := "confidential scan notes: not a JSON document"

/-- A concrete text payload that parses to an object whose `structuredData`
is an empty object — valid JSON that omits every declared schema key. -/
def okText : String := "structured-payload"

/-- The parse of `okText`: `transcribedText` present, `structuredData` an
empty object. -/
def okParsed : Json :=
  .obj [("transcribedText", .str "full text of the report"),
        ("structuredData", .obj [])]

/-- A concrete text payload that parses to a bare JSON array, carrying
neither `transcribedText` nor `structuredData`. -/
def arrText : String := "array-payload"

/-- A success envelope whose `candidates` list is empty, so the nested text
navigation yields undefined. -/
def emptyCandidates : Json := .obj [("candidates", .arr [])]

/-- Modelled from the spec: the key-completeness property claim C3 asserts of
`structuredFields` — every declared output-schema key present (patientInfo
with name/dob/reportDate, diagnosis, prescriptions, testResults), with
absence expressed as explicit null/empty values rather than missing keys.
Stated only to be compared against what the source actually returns; the
source performs no such validation. -/
def structuredFieldsComplete : Option Json → Bool
  | none => false
  | some d =>
    (match d.getField "patientInfo" with
      | some p => p.hasKey "name" && p.hasKey "dob" && p.hasKey "reportDate"
      | none => false)
    && d.hasKey "diagnosis" && d.hasKey "prescriptions" && d.hasKey "testResults"

theorem fetchLoop_throw (fetch : Nat → FetchStep) (jitter : Nat → ℚ)
    (retries i : Nat) (msg : String) (h : i < retries)
    (hf : fetch i = .throw msg) :
    fetchLoop fetch jitter retries i
      = { result := .error { message := msg, status := none },
          numCalls := 1, delays := [] } := by
  unfold fetchLoop
  rw [dif_pos h, hf]

theorem fetchLoop_transient_retry (fetch : Nat → FetchStep) (jitter : Nat → ℚ)
    (retries i : Nat) (r : Response) (h : i < retries)
    (hf : fetch i = .response r) (ht : 500 ≤ r.status ∨ r.status = 429)
    (hl : i ≠ retries - 1) :
    fetchLoop fetch jitter retries i
      = { result := (fetchLoop fetch jitter retries (i + 1)).result,
          numCalls := (fetchLoop fetch jitter retries (i + 1)).numCalls + 1,
          delays := ((2 : ℚ) ^ i * 1000 + jitter i)
            :: (fetchLoop fetch jitter retries (i + 1)).delays } := by
  conv_lhs => rw [fetchLoop]
  rw [dif_pos h, hf]
  simp only [if_pos ht, if_neg hl]

theorem fetchLoop_transient_last (fetch : Nat → FetchStep) (jitter : Nat → ℚ)
    (retries i : Nat) (r : Response) (h : i < retries)
    (hf : fetch i = .response r) (ht : 500 ≤ r.status ∨ r.status = 429)
    (hl : i = retries - 1) :
    fetchLoop fetch jitter retries i
      = { result := .error { message := transientMessage r.status, status := none },
          numCalls := 1, delays := [] } := by
  conv_lhs => rw [fetchLoop]
  rw [dif_pos h, hf]
  simp only [if_pos ht, if_pos hl]

theorem fetchLoop_ok (fetch : Nat → FetchStep) (jitter : Nat → ℚ)
    (retries i : Nat) (r : Response) (h : i < retries)
    (hf : fetch i = .response r) (ht : ¬ (500 ≤ r.status ∨ r.status = 429))
    (hok : responseOk r.status) :
    fetchLoop fetch jitter retries i
      = { result := .ok r, numCalls := 1, delays := [] } := by
  conv_lhs => rw [fetchLoop]
  rw [dif_pos h, hf]
  simp only [if_neg ht, if_pos hok]

theorem fetchLoop_permanent (fetch : Nat → FetchStep) (jitter : Nat → ℚ)
    (retries i : Nat) (r : Response) (h : i < retries)
    (hf : fetch i = .response r) (ht : ¬ (500 ≤ r.status ∨ r.status = 429))
    (hok : ¬ responseOk r.status) :
    fetchLoop fetch jitter retries i
      = { result := .error
            { message := "API error: " ++ orUnknown (serverErrorMessage r.body),
              status := none },
          numCalls := 1, delays := [] } := by
  conv_lhs => rw [fetchLoop]
  rw [dif_pos h, hf]
  simp only [if_neg ht, if_neg hok]


/-- Claim C1: when every response has status ≥ 500 or 429, `fetchWithRetry`
with the default budget of 4 makes exactly 4 fetch calls, waits
`2^i * 1000 ms` plus the uniform jitter in [0, 1000) after each failed
attempt `i` that is not the last, and finally fails with the user-facing
temporarily-unavailable message interpolating the last HTTP status. -/
theorem fetchWithRetry_transient_exhaustion
    (s : Nat → Nat) (b : Nat → Json) (jitter : Nat → ℚ)
    (hs : ∀ i, i < 4 → 500 ≤ s i ∨ s i = 429)
    (hj : ∀ i, 0 ≤ jitter i ∧ jitter i < 1000) :
    (fetchWithRetry (fun i => .response ⟨s i, b i⟩) jitter 4).numCalls = 4 ∧
    (fetchWithRetry (fun i => .response ⟨s i, b i⟩) jitter 4).result
      = .error { message := transientMessage (s 3), status := none } ∧
    (fetchWithRetry (fun i => .response ⟨s i, b i⟩) jitter 4).delays
      = [(2 : ℚ) ^ 0 * 1000 + jitter 0, (2 : ℚ) ^ 1 * 1000 + jitter 1,
         (2 : ℚ) ^ 2 * 1000 + jitter 2] ∧
    ∀ d ∈ (fetchWithRetry (fun i => .response ⟨s i, b i⟩) jitter 4).delays,
      ∃ i, i < 3 ∧ (2 : ℚ) ^ i * 1000 ≤ d ∧ d < (2 : ℚ) ^ i * 1000 + 1000 := by
  have E : fetchWithRetry (fun i => .response ⟨s i, b i⟩) jitter 4
      = { result := .error { message := transientMessage (s 3), status := none },
          numCalls := 4,
          delays := [(2 : ℚ) ^ 0 * 1000 + jitter 0, (2 : ℚ) ^ 1 * 1000 + jitter 1,
                     (2 : ℚ) ^ 2 * 1000 + jitter 2] } := by
    rw [fetchWithRetry,
      fetchLoop_transient_retry _ jitter 4 0 ⟨s 0, b 0⟩ (by omega) rfl
        (hs 0 (by omega)) (by omega),
      fetchLoop_transient_retry _ jitter 4 1 ⟨s 1, b 1⟩ (by omega) rfl
        (hs 1 (by omega)) (by omega),
      fetchLoop_transient_retry _ jitter 4 2 ⟨s 2, b 2⟩ (by omega) rfl
        (hs 2 (by omega)) (by omega),
      fetchLoop_transient_last _ jitter 4 3 ⟨s 3, b 3⟩ (by omega) rfl
        (hs 3 (by omega)) (by omega)]
  refine ⟨by rw [E], by rw [E], by rw [E], ?_⟩
  rw [E]
  intro d hd
  simp only [List.mem_cons, List.not_mem_nil, or_false] at hd
  rcases hd with hd | hd | hd
  · exact ⟨0, by omega, by rw [hd]; linarith [(hj 0).1], by rw [hd]; linarith [(hj 0).2]⟩
  · exact ⟨1, by omega, by rw [hd]; linarith [(hj 1).1], by rw [hd]; linarith [(hj 1).2]⟩
  · exact ⟨2, by omega, by rw [hd]; linarith [(hj 2).1], by rw [hd]; linarith [(hj 2).2]⟩

/-- Concrete run of the C1 theorem: every attempt answers 503 and every
jitter draw is 500 ms. -/
theorem fetchWithRetry_transient_exhaustion_witness :
    (fetchWithRetry (fun _ => .response ⟨503, .null⟩) (fun _ => (500 : ℚ)) 4).numCalls = 4 ∧
    (fetchWithRetry (fun _ => .response ⟨503, .null⟩) (fun _ => (500 : ℚ)) 4).result
      = .error { message := transientMessage 503, status := none } ∧
    (fetchWithRetry (fun _ => .response ⟨503, .null⟩) (fun _ => (500 : ℚ)) 4).delays
      = [(2 : ℚ) ^ 0 * 1000 + 500, (2 : ℚ) ^ 1 * 1000 + 500,
         (2 : ℚ) ^ 2 * 1000 + 500] ∧
    ∀ d ∈ (fetchWithRetry (fun _ => .response ⟨503, .null⟩) (fun _ => (500 : ℚ)) 4).delays,
      ∃ i, i < 3 ∧ (2 : ℚ) ^ i * 1000 ≤ d ∧ d < (2 : ℚ) ^ i * 1000 + 1000 :=
  fetchWithRetry_transient_exhaustion (fun _ => 503) (fun _ => .null) (fun _ => 500)
    (fun _ _ => Or.inl (by norm_num)) (fun _ => ⟨by norm_num, by norm_num⟩)

/-- Claim C4: a non-2xx status below 500 and different from 429 fails on the
first attempt with no delay and no retry; the error surfaces the
server-provided message from the body when present (and truthy), else the
generic Unknown error. -/
theorem fetchWithRetry_permanent_fail_fast
    (fetch : Nat → FetchStep) (jitter : Nat → ℚ) (st : Nat) (body : Json)
    (hf : fetch 0 = .response ⟨st, body⟩)
    (h400 : 400 ≤ st) (h500 : st < 500) (h429 : st ≠ 429) :
    (fetchWithRetry fetch jitter 4).numCalls = 1 ∧
    (fetchWithRetry fetch jitter 4).delays = [] ∧
    (fetchWithRetry fetch jitter 4).result
      = .error { message := "API error: " ++ orUnknown (serverErrorMessage body),
                 status := none } ∧
    (∀ m, serverErrorMessage body = some m → m ≠ "" →
      (fetchWithRetry fetch jitter 4).result
        = .error { message := "API error: " ++ m, status := none }) ∧
    (serverErrorMessage body = none →
      (fetchWithRetry fetch jitter 4).result
        = .error { message := "API error: " ++ "Unknown error", status := none }) := by
  have E : fetchWithRetry fetch jitter 4
      = { result := .error
            { message := "API error: " ++ orUnknown (serverErrorMessage body),
              status := none },
          numCalls := 1, delays := [] } := by
    rw [fetchWithRetry,
      fetchLoop_permanent fetch jitter 4 0 ⟨st, body⟩ (by omega) hf
        (by show ¬ (500 ≤ st ∨ st = 429); omega)
        (by show ¬ responseOk st; unfold responseOk; omega)]
  refine ⟨by rw [E], by rw [E], by rw [E], ?_, ?_⟩
  · intro m hm hm'
    rw [E, hm]
    simp [orUnknown, hm']
  · intro hm
    rw [E, hm]
    rfl

/-- Concrete run of the C4 theorem: a 404 whose body carries a server
message. -/
theorem fetchWithRetry_permanent_fail_fast_witness :
    (fetchWithRetry (fun _ => .response ⟨404, notFoundBody⟩)
        (fun _ => (0 : ℚ)) 4).numCalls = 1 ∧
    (fetchWithRetry (fun _ => .response ⟨404, notFoundBody⟩)
        (fun _ => (0 : ℚ)) 4).delays = [] ∧
    (fetchWithRetry (fun _ => .response ⟨404, notFoundBody⟩)
        (fun _ => (0 : ℚ)) 4).result
      = .error { message := "API error: " ++ orUnknown (serverErrorMessage notFoundBody),
                 status := none } :=
  have h := fetchWithRetry_permanent_fail_fast
    (fun _ => .response ⟨404, notFoundBody⟩)
    (fun _ => (0 : ℚ)) 404 notFoundBody
    rfl (by norm_num) (by norm_num) (by norm_num)
  ⟨h.1, h.2.1, h.2.2.1⟩

/-- Claim C5: a network-level exception (no attached HTTP status) is
propagated on the first attempt, with no delay and no further fetch calls;
and conversely, any run that performs a second fetch call must have seen a
transient HTTP status (≥ 500 or 429) on its first attempt — only
status-tagged errors are ever retried. -/
theorem fetchWithRetry_network_error_immediate
    (fetch : Nat → FetchStep) (jitter : Nat → ℚ) (msg : String)
    (hf : fetch 0 = .throw msg) :
    ((fetchWithRetry fetch jitter 4).numCalls = 1 ∧
     (fetchWithRetry fetch jitter 4).delays = [] ∧
     (fetchWithRetry fetch jitter 4).result
       = .error { message := msg, status := none }) ∧
    (∀ g : Nat → FetchStep, 2 ≤ (fetchWithRetry g jitter 4).numCalls →
      ∃ r, g 0 = .response r ∧ (500 ≤ r.status ∨ r.status = 429)) := by
  constructor
  · have E : fetchWithRetry fetch jitter 4
        = { result := .error { message := msg, status := none },
            numCalls := 1, delays := [] } := by
      rw [fetchWithRetry, fetchLoop_throw fetch jitter 4 0 msg (by omega) hf]
    exact ⟨by rw [E], by rw [E], by rw [E]⟩
  · intro g hg
    rcases hg0 : g 0 with r | m
    · by_cases ht : 500 ≤ r.status ∨ r.status = 429
      · exact ⟨r, rfl, ht⟩
      · by_cases hok : responseOk r.status
        · rw [fetchWithRetry, fetchLoop_ok g jitter 4 0 r (by omega) hg0 ht hok] at hg
          simp at hg
        · rw [fetchWithRetry,
            fetchLoop_permanent g jitter 4 0 r (by omega) hg0 ht hok] at hg
          simp at hg
    · rw [fetchWithRetry, fetchLoop_throw g jitter 4 0 m (by omega) hg0] at hg
      simp at hg

/-- Concrete run of the C5 theorem: the first fetch raises a connection-reset
exception. -/
theorem fetchWithRetry_network_error_immediate_witness :
    ((fetchWithRetry (fun _ => .throw "connection reset") (fun _ => (0 : ℚ)) 4).numCalls = 1 ∧
     (fetchWithRetry (fun _ => .throw "connection reset") (fun _ => (0 : ℚ)) 4).delays = [] ∧
     (fetchWithRetry (fun _ => .throw "connection reset") (fun _ => (0 : ℚ)) 4).result
       = .error { message := "connection reset", status := none }) ∧
    (∀ g : Nat → FetchStep, 2 ≤ (fetchWithRetry g (fun _ => (0 : ℚ)) 4).numCalls →
      ∃ r, g 0 = .response r ∧ (500 ≤ r.status ∨ r.status = 429)) :=
  fetchWithRetry_network_error_immediate (fun _ => .throw "connection reset")
    (fun _ => (0 : ℚ)) "connection reset" rfl

theorem fetchWithRetry_ok_first (fetch : Nat → FetchStep) (jitter : Nat → ℚ)
    (st : Nat) (body : Json)
    (hf : fetch 0 = .response ⟨st, body⟩) (hok : responseOk st) :
    fetchWithRetry fetch jitter 4
      = { result := .ok ⟨st, body⟩, numCalls := 1, delays := [] } := by
  rw [fetchWithRetry, fetchLoop_ok fetch jitter 4 0 ⟨st, body⟩ (by omega) hf
    (by show ¬ (500 ≤ st ∨ st = 429); have h2 := hok.2; omega)
    hok]

theorem fetchWithRetry_numCalls_pos (fetch : Nat → FetchStep) (jitter : Nat → ℚ) :
    1 ≤ (fetchWithRetry fetch jitter 4).numCalls := by
  rcases h0 : fetch 0 with r | m
  · by_cases ht : 500 ≤ r.status ∨ r.status = 429
    · rw [fetchWithRetry,
        fetchLoop_transient_retry fetch jitter 4 0 r (by omega) h0 ht (by omega)]
      simp
    · by_cases hok : responseOk r.status
      · rw [fetchWithRetry, fetchLoop_ok fetch jitter 4 0 r (by omega) h0 ht hok]
      · rw [fetchWithRetry, fetchLoop_permanent fetch jitter 4 0 r (by omega) h0 ht hok]
  · rw [fetchWithRetry, fetchLoop_throw fetch jitter 4 0 m (by omega) h0]

theorem extract_result_of_first_ok (parseJson : String → Option Json)
    (fetch : Nat → FetchStep) (jitter : Nat → ℚ) (st : Nat) (body : Json)
    (hf : fetch 0 = .response ⟨st, body⟩) (hok : responseOk st) :
    Multimodal.extractMedicalDataWithGemini parseJson fetch jitter
      = { result := Multimodal.parseGeminiBody parseJson body,
          numCalls := 1, delays := [] } := by
  unfold Multimodal.extractMedicalDataWithGemini
  rw [fetchWithRetry_ok_first fetch jitter st body hf hok]

theorem parseGeminiBody_of_parse (parseJson : String → Option Json)
    (body : Json) (s : String) (j : Json)
    (henv : envelopeText body = some (.str s)) (hs : s ≠ "")
    (hp : parseJson s = some j) :
    Multimodal.parseGeminiBody parseJson body
      = .ok { extractedText := j.getField "transcribedText",
              extractedData := j.getField "structuredData" } := by
  unfold Multimodal.parseGeminiBody
  rw [henv]
  simp only [if_neg hs, hp]

theorem parseGeminiBody_parse_fail (parseJson : String → Option Json)
    (body : Json) (s : String)
    (henv : envelopeText body = some (.str s)) (hs : s ≠ "")
    (hp : parseJson s = none) :
    Multimodal.parseGeminiBody parseJson body
      = .error { message := "Gemini API did not return valid JSON. See raw text for details.",
                 status := none } := by
  unfold Multimodal.parseGeminiBody
  rw [henv]
  simp only [if_neg hs, hp]

theorem parseGeminiBody_invalid (parseJson : String → Option Json) (body : Json)
    (henv : envelopeText body = none) :
    Multimodal.parseGeminiBody parseJson body
      = .error { message := "Invalid response structure from Gemini API.",
                 status := none } := by
  unfold Multimodal.parseGeminiBody
  rw [henv]

theorem parseGeminiWhole_parse_fail (parseJson : String → Option Json)
    (body : Json) (s : String)
    (henv : envelopeText body = some (.str s)) (hs : s ≠ "")
    (hp : parseJson s = none) :
    TwoStage.parseGeminiWhole parseJson body
      = .error { message := "Gemini API did not return valid JSON. See raw text for details.",
                 status := none } := by
  unfold TwoStage.parseGeminiWhole
  rw [henv]
  simp only [if_neg hs, hp]

theorem parseGeminiWhole_invalid (parseJson : String → Option Json) (body : Json)
    (henv : envelopeText body = none) :
    TwoStage.parseGeminiWhole parseJson body
      = .error { message := "Invalid response structure from Gemini API.",
                 status := none } := by
  unfold TwoStage.parseGeminiWhole
  rw [henv]

theorem twoStage_gemini_ok (parseJson : String → Option Json) (st : Nat)
    (body : Json) (hok : responseOk st) :
    TwoStage.extractMedicalDataWithGemini parseJson (.response ⟨st, body⟩)
      = { result := TwoStage.parseGeminiWhole parseJson body,
          numCalls := 1, delays := [] } := by
  simp only [TwoStage.extractMedicalDataWithGemini]
  rw [if_pos hok]

theorem twoStage_gemini_err (parseJson : String → Option Json) (st : Nat)
    (body : Json) (hnok : ¬ responseOk st) :
    TwoStage.extractMedicalDataWithGemini parseJson (.response ⟨st, body⟩)
      = { result := .error
            { message := "Gemini API error: " ++ orUnknown (serverErrorMessage body),
              status := none },
          numCalls := 1, delays := [] } := by
  simp only [TwoStage.extractMedicalDataWithGemini]
  rw [if_neg hnok]

theorem twoStage_vision_err (st : Nat) (body : Json) (hnok : ¬ responseOk st) :
    TwoStage.detectTextWithVisionAPI (.response ⟨st, body⟩)
      = { result := .error
            { message := "Vision API error: " ++ orUnknown (serverErrorMessage body),
              status := none },
          numCalls := 1, delays := [] } := by
  simp only [TwoStage.detectTextWithVisionAPI]
  rw [if_neg hnok]

/-- Claim C2 counterexample: a 2xx envelope whose text payload is the
concrete garbage string fails with an error whose message is the fixed
not-valid-JSON sentence; the raw text does not occur anywhere in that
message, so it is not surfaced to the caller in the error payload. -/
theorem extract_raw_text_not_in_error :
    (Multimodal.extractMedicalDataWithGemini (parseStub [])
        (fun _ => .response ⟨200, geminiEnvelope (.str garbageText)⟩)
        (fun _ => (0 : ℚ))).result
      = .error { message := "Gemini API did not return valid JSON. See raw text for details.",
                 status := none }
    ∧ ¬ List.IsInfix garbageText.data
        "Gemini API did not return valid JSON. See raw text for details.".data := by
  constructor
  · rw [extract_result_of_first_ok (parseStub []) _ (fun _ => (0 : ℚ)) 200
      (geminiEnvelope (.str garbageText)) rfl (by decide)]
    rfl
  · decide

/-- Claim C2 (amended): for every 2xx response whose envelope text payload is
not valid JSON, both variants of `extract` fail with a MalformedResponse
error carrying the fixed message; the raw text is written only to the console
log and is not retained in the error payload — the error is the same constant
for every raw text. -/
theorem extract_malformed_fixed_message (parseJson : String → Option Json)
    (fetch : Nat → FetchStep) (jitter : Nat → ℚ) (st : Nat) (body : Json)
    (s : String)
    (hf : fetch 0 = .response ⟨st, body⟩) (hok : responseOk st)
    (henv : envelopeText body = some (.str s)) (hs : s ≠ "")
    (hp : parseJson s = none) :
    (Multimodal.extractMedicalDataWithGemini parseJson fetch jitter).result
      = .error { message := "Gemini API did not return valid JSON. See raw text for details.",
                 status := none }
    ∧ (TwoStage.extractMedicalDataWithGemini parseJson (.response ⟨st, body⟩)).result
      = .error { message := "Gemini API did not return valid JSON. See raw text for details.",
                 status := none } := by
  constructor
  · rw [extract_result_of_first_ok parseJson fetch jitter st body hf hok]
    exact parseGeminiBody_parse_fail parseJson body s henv hs hp
  · rw [twoStage_gemini_ok parseJson st body hok]
    exact parseGeminiWhole_parse_fail parseJson body s henv hs hp

/-- Concrete run of the amended C2 theorem on the garbage payload. -/
theorem extract_malformed_fixed_message_witness :
    (Multimodal.extractMedicalDataWithGemini (parseStub [])
        (fun _ => .response ⟨200, geminiEnvelope (.str garbageText)⟩)
        (fun _ => (0 : ℚ))).result
      = .error { message := "Gemini API did not return valid JSON. See raw text for details.",
                 status := none }
    ∧ (TwoStage.extractMedicalDataWithGemini (parseStub [])
        (.response ⟨200, geminiEnvelope (.str garbageText)⟩)).result
      = .error { message := "Gemini API did not return valid JSON. See raw text for details.",
                 status := none } :=
  extract_malformed_fixed_message (parseStub [])
    (fun _ => .response ⟨200, geminiEnvelope (.str garbageText)⟩) (fun _ => (0 : ℚ))
    200 (geminiEnvelope (.str garbageText)) garbageText
    rfl (by decide) rfl (by decide) rfl

/-- Claim C3 counterexample: a successful extraction whose envelope holds
valid JSON with `structuredData = {}` (an empty object) succeeds, yet the
returned structured fields omit every declared schema key — key-completeness
is not guaranteed. -/
theorem extract_schema_keys_counterexample :
    (Multimodal.extractMedicalDataWithGemini (parseStub [(okText, okParsed)])
        (fun _ => .response ⟨200, geminiEnvelope (.str okText)⟩)
        (fun _ => (0 : ℚ))).result
      = .ok { extractedText := some (.str "full text of the report"),
              extractedData := some (.obj []) }
    ∧ structuredFieldsComplete (some (.obj [])) = false := by
  constructor
  · rw [extract_result_of_first_ok (parseStub [(okText, okParsed)]) _ (fun _ => (0 : ℚ))
      200 (geminiEnvelope (.str okText)) rfl (by decide)]
    rfl
  · rfl

/-- Claim C3 (amended): `extract` performs no schema validation: on a 2xx
response whose envelope text parses, it returns exactly the backend's
`transcribedText` and `structuredData` values (each undefined when the key is
absent); presence of the declared schema keys is requested in the prompt but
never enforced on the result. -/
theorem extract_returns_backend_fields_unvalidated (parseJson : String → Option Json)
    (fetch : Nat → FetchStep) (jitter : Nat → ℚ) (st : Nat) (body : Json)
    (s : String) (j : Json)
    (hf : fetch 0 = .response ⟨st, body⟩) (hok : responseOk st)
    (henv : envelopeText body = some (.str s)) (hs : s ≠ "")
    (hp : parseJson s = some j) :
    (Multimodal.extractMedicalDataWithGemini parseJson fetch jitter).result
      = .ok { extractedText := j.getField "transcribedText",
              extractedData := j.getField "structuredData" } := by
  rw [extract_result_of_first_ok parseJson fetch jitter st body hf hok]
  exact parseGeminiBody_of_parse parseJson body s j henv hs hp

/-- Concrete run of the amended C3 theorem on the empty-structuredData
payload. -/
theorem extract_returns_backend_fields_unvalidated_witness :
    (Multimodal.extractMedicalDataWithGemini (parseStub [(okText, okParsed)])
        (fun _ => .response ⟨200, geminiEnvelope (.str okText)⟩)
        (fun _ => (0 : ℚ))).result
      = .ok { extractedText := okParsed.getField "transcribedText",
              extractedData := okParsed.getField "structuredData" } :=
  extract_returns_backend_fields_unvalidated (parseStub [(okText, okParsed)])
    (fun _ => .response ⟨200, geminiEnvelope (.str okText)⟩) (fun _ => (0 : ℚ))
    200 (geminiEnvelope (.str okText)) okText okParsed
    rfl (by decide) rfl (by decide) rfl

/-- Claim C6: for every 2xx response whose envelope lacks the nested
`candidates[0].content.parts[0].text` field, both variants of `extract` fail
with the invalid-structure message from the Gemini API; the result is the
same for every `JSON.parse` behaviour, so no parsing of the payload is
involved. -/
theorem extract_invalid_structure (parseJson : String → Option Json)
    (fetch : Nat → FetchStep) (jitter : Nat → ℚ) (st : Nat) (body : Json)
    (hf : fetch 0 = .response ⟨st, body⟩) (hok : responseOk st)
    (henv : envelopeText body = none) :
    (Multimodal.extractMedicalDataWithGemini parseJson fetch jitter).result
      = .error { message := "Invalid response structure from Gemini API.",
                 status := none }
    ∧ (TwoStage.extractMedicalDataWithGemini parseJson (.response ⟨st, body⟩)).result
      = .error { message := "Invalid response structure from Gemini API.",
                 status := none } := by
  constructor
  · rw [extract_result_of_first_ok parseJson fetch jitter st body hf hok]
    exact parseGeminiBody_invalid parseJson body henv
  · rw [twoStage_gemini_ok parseJson st body hok]
    exact parseGeminiWhole_invalid parseJson body henv

/-- Concrete run of the C6 theorem on an envelope with an empty `candidates`
list. -/
theorem extract_invalid_structure_witness :
    (Multimodal.extractMedicalDataWithGemini (parseStub [(okText, okParsed)])
        (fun _ => .response ⟨200, emptyCandidates⟩) (fun _ => (0 : ℚ))).result
      = .error { message := "Invalid response structure from Gemini API.",
                 status := none }
    ∧ (TwoStage.extractMedicalDataWithGemini (parseStub [(okText, okParsed)])
        (.response ⟨200, emptyCandidates⟩)).result
      = .error { message := "Invalid response structure from Gemini API.",
                 status := none } :=
  extract_invalid_structure (parseStub [(okText, okParsed)])
    (fun _ => .response ⟨200, emptyCandidates⟩) (fun _ => (0 : ℚ))
    200 emptyCandidates rfl (by decide) rfl

/-- Claim C10: in the multimodal variant, an envelope text payload that
parses as valid JSON but carries neither the `transcribedText` nor the
`structuredData` key makes `extract` succeed with both result fields
undefined — no MalformedResponse failure is raised. -/
theorem extract_succeeds_without_schema_keys (parseJson : String → Option Json)
    (fetch : Nat → FetchStep) (jitter : Nat → ℚ) (st : Nat) (body : Json)
    (s : String) (j : Json)
    (hf : fetch 0 = .response ⟨st, body⟩) (hok : responseOk st)
    (henv : envelopeText body = some (.str s)) (hs : s ≠ "")
    (hp : parseJson s = some j)
    (ht : j.getField "transcribedText" = none)
    (hd : j.getField "structuredData" = none) :
    (Multimodal.extractMedicalDataWithGemini parseJson fetch jitter).result
      = .ok { extractedText := none, extractedData := none } := by
  rw [extract_result_of_first_ok parseJson fetch jitter st body hf hok,
    show ({ result := Multimodal.parseGeminiBody parseJson body, numCalls := 1,
            delays := [] } : Multimodal.ExtractTrace).result
      = Multimodal.parseGeminiBody parseJson body from rfl,
    parseGeminiBody_of_parse parseJson body s j henv hs hp, ht, hd]

/-- Concrete run of the C10 theorem on a bare-array payload. -/
theorem extract_succeeds_without_schema_keys_witness :
    (Multimodal.extractMedicalDataWithGemini (parseStub [(arrText, .arr [])])
        (fun _ => .response ⟨200, geminiEnvelope (.str arrText)⟩)
        (fun _ => (0 : ℚ))).result
      = .ok { extractedText := none, extractedData := none } :=
  extract_succeeds_without_schema_keys (parseStub [(arrText, .arr [])])
    (fun _ => .response ⟨200, geminiEnvelope (.str arrText)⟩) (fun _ => (0 : ℚ))
    200 (geminiEnvelope (.str arrText)) arrText (.arr [])
    rfl (by decide) rfl (by decide) rfl rfl rfl

theorem extract_numCalls_eq (parseJson : String → Option Json)
    (fetch : Nat → FetchStep) (jitter : Nat → ℚ) :
    (Multimodal.extractMedicalDataWithGemini parseJson fetch jitter).numCalls
      = (fetchWithRetry fetch jitter 4).numCalls := rfl

/-- Claim C7: with budget 4, status 503 on attempts 1–3 and a 2xx response
with a valid-JSON envelope on attempt 4, the extraction succeeds with the
parsed fields, exactly 4 fetch calls are made, and the total backoff delay is
1000 + 2000 + 4000 ms plus the three jitter draws — hence at least 7000 ms. -/
theorem extract_recovers_after_transient (parseJson : String → Option Json)
    (fetch : Nat → FetchStep) (jitter : Nat → ℚ) (b : Nat → Json)
    (body : Json) (s : String) (j : Json)
    (h503 : ∀ i, i < 3 → fetch i = .response ⟨503, b i⟩)
    (h200 : fetch 3 = .response ⟨200, body⟩)
    (henv : envelopeText body = some (.str s)) (hs : s ≠ "")
    (hp : parseJson s = some j)
    (hj : ∀ i, 0 ≤ jitter i) :
    (Multimodal.extractMedicalDataWithGemini parseJson fetch jitter).result
      = .ok { extractedText := j.getField "transcribedText",
              extractedData := j.getField "structuredData" }
    ∧ (Multimodal.extractMedicalDataWithGemini parseJson fetch jitter).numCalls = 4
    ∧ (Multimodal.extractMedicalDataWithGemini parseJson fetch jitter).delays.sum
        = ((2 : ℚ) ^ 0 * 1000 + jitter 0) + ((2 : ℚ) ^ 1 * 1000 + jitter 1)
          + ((2 : ℚ) ^ 2 * 1000 + jitter 2)
    ∧ 7000 ≤ (Multimodal.extractMedicalDataWithGemini parseJson fetch jitter).delays.sum := by
  have E : fetchWithRetry fetch jitter 4
      = { result := .ok ⟨200, body⟩, numCalls := 4,
          delays := [(2 : ℚ) ^ 0 * 1000 + jitter 0, (2 : ℚ) ^ 1 * 1000 + jitter 1,
                     (2 : ℚ) ^ 2 * 1000 + jitter 2] } := by
    rw [fetchWithRetry,
      fetchLoop_transient_retry fetch jitter 4 0 ⟨503, b 0⟩ (by omega)
        (h503 0 (by omega)) (Or.inl (by norm_num)) (by omega),
      fetchLoop_transient_retry fetch jitter 4 1 ⟨503, b 1⟩ (by omega)
        (h503 1 (by omega)) (Or.inl (by norm_num)) (by omega),
      fetchLoop_transient_retry fetch jitter 4 2 ⟨503, b 2⟩ (by omega)
        (h503 2 (by omega)) (Or.inl (by norm_num)) (by omega),
      fetchLoop_ok fetch jitter 4 3 ⟨200, body⟩ (by omega) h200
        (by show ¬ (500 ≤ 200 ∨ 200 = 429); omega)
        (by show responseOk 200; exact ⟨by omega, by omega⟩)]
  have Eex : Multimodal.extractMedicalDataWithGemini parseJson fetch jitter
      = { result := Multimodal.parseGeminiBody parseJson body, numCalls := 4,
          delays := [(2 : ℚ) ^ 0 * 1000 + jitter 0, (2 : ℚ) ^ 1 * 1000 + jitter 1,
                     (2 : ℚ) ^ 2 * 1000 + jitter 2] } := by
    unfold Multimodal.extractMedicalDataWithGemini
    rw [E]
  refine ⟨?_, by rw [Eex], ?_, ?_⟩
  · rw [Eex]
    exact parseGeminiBody_of_parse parseJson body s j henv hs hp
  · rw [Eex]
    simp [List.sum_cons, List.sum_nil]
    ring
  · rw [Eex]
    simp only [List.sum_cons, List.sum_nil]
    have j0 := hj 0
    have j1 := hj 1
    have j2 := hj 2
    norm_num
    linarith

/-- Concrete run of the C7 theorem: three 503s, then a 200 carrying the
well-formed payload, with every jitter draw equal to 0. -/
theorem extract_recovers_after_transient_witness :
    (Multimodal.extractMedicalDataWithGemini (parseStub [(okText, okParsed)])
        (fun i => if i < 3 then .response ⟨503, .null⟩
                  else .response ⟨200, geminiEnvelope (.str okText)⟩)
        (fun _ => (0 : ℚ))).result
      = .ok { extractedText := okParsed.getField "transcribedText",
              extractedData := okParsed.getField "structuredData" }
    ∧ (Multimodal.extractMedicalDataWithGemini (parseStub [(okText, okParsed)])
        (fun i => if i < 3 then .response ⟨503, .null⟩
                  else .response ⟨200, geminiEnvelope (.str okText)⟩)
        (fun _ => (0 : ℚ))).numCalls = 4
    ∧ (Multimodal.extractMedicalDataWithGemini (parseStub [(okText, okParsed)])
        (fun i => if i < 3 then .response ⟨503, .null⟩
                  else .response ⟨200, geminiEnvelope (.str okText)⟩)
        (fun _ => (0 : ℚ))).delays.sum
      = ((2 : ℚ) ^ 0 * 1000 + 0) + ((2 : ℚ) ^ 1 * 1000 + 0) + ((2 : ℚ) ^ 2 * 1000 + 0)
    ∧ 7000 ≤ (Multimodal.extractMedicalDataWithGemini (parseStub [(okText, okParsed)])
        (fun i => if i < 3 then .response ⟨503, .null⟩
                  else .response ⟨200, geminiEnvelope (.str okText)⟩)
        (fun _ => (0 : ℚ))).delays.sum :=
  extract_recovers_after_transient (parseStub [(okText, okParsed)])
    (fun i => if i < 3 then .response ⟨503, .null⟩
              else .response ⟨200, geminiEnvelope (.str okText)⟩)
    (fun _ => (0 : ℚ)) (fun _ => .null) (geminiEnvelope (.str okText)) okText okParsed
    (by intro i hi; interval_cases i <;> rfl) rfl rfl (by decide) rfl
    (fun _ => le_refl 0)

/-- Claim C8 counterexample: a selected file whose byte content is empty
passes the precondition checks — with a non-empty key the click proceeds, one
network call is made and no error is shown, contradicting fail-immediately-
with-zero-network-calls for empty document bytes. -/
theorem click_empty_file_counterexample :
    (Multimodal.handleProcessClick (parseStub [(okText, okParsed)])
        (fun _ => .response ⟨200, geminiEnvelope (.str okText)⟩) (fun _ => (0 : ℚ))
        (some { bytes := [], mimeType := "image/png" }) "api-key").networkCalls = 1
    ∧ (Multimodal.handleProcessClick (parseStub [(okText, okParsed)])
        (fun _ => .response ⟨200, geminiEnvelope (.str okText)⟩) (fun _ => (0 : ℚ))
        (some { bytes := [], mimeType := "image/png" }) "api-key").errorMessage = "" := by
  have E := extract_result_of_first_ok (parseStub [(okText, okParsed)])
    (fun _ => .response ⟨200, geminiEnvelope (.str okText)⟩) (fun _ => (0 : ℚ))
    200 (geminiEnvelope (.str okText)) rfl (by decide)
  constructor
  · simp only [Multimodal.handleProcessClick, E]
    rfl
  · simp only [Multimodal.handleProcessClick, E]
    rfl

/-- Claim C8 (amended): a missing (unselected) file or an empty API key is
rejected with the corresponding precondition message before any network call
(zero network calls); but an empty-but-selected file is not checked — for any
selected file (zero-byte included) and non-empty key, at least one network
call is made. -/
theorem click_preconditions (parseJson : String → Option Json)
    (fetch : Nat → FetchStep) (jitter : Nat → ℚ) (key : String)
    (fl : Multimodal.File) (hkey : key ≠ "") :
    (Multimodal.handleProcessClick parseJson fetch jitter none key).errorMessage
      = "Please upload a file first."
    ∧ (Multimodal.handleProcessClick parseJson fetch jitter none key).networkCalls = 0
    ∧ (Multimodal.handleProcessClick parseJson fetch jitter (some fl) "").errorMessage
      = "Please enter your Google AI API key."
    ∧ (Multimodal.handleProcessClick parseJson fetch jitter (some fl) "").networkCalls = 0
    ∧ 1 ≤ (Multimodal.handleProcessClick parseJson fetch jitter (some fl) key).networkCalls := by
  refine ⟨rfl, rfl, by simp [Multimodal.handleProcessClick], by simp [Multimodal.handleProcessClick], ?_⟩
  simp only [Multimodal.handleProcessClick, if_neg hkey]
  rcases hres : (Multimodal.extractMedicalDataWithGemini parseJson fetch jitter).result with e | r
  · rw [extract_numCalls_eq]
    exact fetchWithRetry_numCalls_pos fetch jitter
  · rw [extract_numCalls_eq]
    exact fetchWithRetry_numCalls_pos fetch jitter

/-- Concrete run of the amended C8 theorem with a zero-byte selected file. -/
theorem click_preconditions_witness :
    (Multimodal.handleProcessClick (parseStub [(okText, okParsed)])
        (fun _ => .response ⟨200, geminiEnvelope (.str okText)⟩) (fun _ => (0 : ℚ))
        none "api-key").errorMessage = "Please upload a file first."
    ∧ (Multimodal.handleProcessClick (parseStub [(okText, okParsed)])
        (fun _ => .response ⟨200, geminiEnvelope (.str okText)⟩) (fun _ => (0 : ℚ))
        none "api-key").networkCalls = 0
    ∧ (Multimodal.handleProcessClick (parseStub [(okText, okParsed)])
        (fun _ => .response ⟨200, geminiEnvelope (.str okText)⟩) (fun _ => (0 : ℚ))
        (some { bytes := [], mimeType := "image/png" }) "").errorMessage
      = "Please enter your Google AI API key."
    ∧ (Multimodal.handleProcessClick (parseStub [(okText, okParsed)])
        (fun _ => .response ⟨200, geminiEnvelope (.str okText)⟩) (fun _ => (0 : ℚ))
        (some { bytes := [], mimeType := "image/png" }) "").networkCalls = 0
    ∧ 1 ≤ (Multimodal.handleProcessClick (parseStub [(okText, okParsed)])
        (fun _ => .response ⟨200, geminiEnvelope (.str okText)⟩) (fun _ => (0 : ℚ))
        (some { bytes := [], mimeType := "image/png" }) "api-key").networkCalls :=
  click_preconditions (parseStub [(okText, okParsed)])
    (fun _ => .response ⟨200, geminiEnvelope (.str okText)⟩) (fun _ => (0 : ℚ))
    "api-key" { bytes := [], mimeType := "image/png" } (by decide)

/-- Claim C9: in the two-stage variant neither endpoint call is wrapped in a
retry mechanism: any non-2xx status — 5xx and 429 included — makes the stage
fail after exactly one fetch, with no backoff delay and no second attempt. -/
theorem twoStage_no_retry (parseJson : String → Option Json) (st : Nat)
    (body : Json) (hnok : ¬ responseOk st) :
    (TwoStage.detectTextWithVisionAPI (.response ⟨st, body⟩)).numCalls = 1
    ∧ (TwoStage.detectTextWithVisionAPI (.response ⟨st, body⟩)).delays = []
    ∧ (TwoStage.detectTextWithVisionAPI (.response ⟨st, body⟩)).result
        = .error { message := "Vision API error: " ++ orUnknown (serverErrorMessage body),
                   status := none }
    ∧ (TwoStage.extractMedicalDataWithGemini parseJson (.response ⟨st, body⟩)).numCalls = 1
    ∧ (TwoStage.extractMedicalDataWithGemini parseJson (.response ⟨st, body⟩)).delays = []
    ∧ (TwoStage.extractMedicalDataWithGemini parseJson (.response ⟨st, body⟩)).result
        = .error { message := "Gemini API error: " ++ orUnknown (serverErrorMessage body),
                   status := none } := by
  have EV := twoStage_vision_err st body hnok
  have EG := twoStage_gemini_err parseJson st body hnok
  exact ⟨by rw [EV], by rw [EV], by rw [EV], by rw [EG], by rw [EG], by rw [EG]⟩

/-- Concrete run of the C9 theorem at status 503 and at status 429 is covered
by the theorem for every non-2xx status; this witness instantiates 503. -/
theorem twoStage_no_retry_witness :
    (TwoStage.detectTextWithVisionAPI (.response ⟨503, .null⟩)).numCalls = 1
    ∧ (TwoStage.detectTextWithVisionAPI (.response ⟨503, .null⟩)).delays = []
    ∧ (TwoStage.detectTextWithVisionAPI (.response ⟨503, .null⟩)).result
        = .error { message := "Vision API error: " ++ orUnknown (serverErrorMessage .null),
                   status := none }
    ∧ (TwoStage.extractMedicalDataWithGemini (parseStub [])
        (.response ⟨503, .null⟩)).numCalls = 1
    ∧ (TwoStage.extractMedicalDataWithGemini (parseStub [])
        (.response ⟨503, .null⟩)).delays = []
    ∧ (TwoStage.extractMedicalDataWithGemini (parseStub [])
        (.response ⟨503, .null⟩)).result
        = .error { message := "Gemini API error: " ++ orUnknown (serverErrorMessage .null),
                   status := none } :=
  twoStage_no_retry (parseStub []) 503 .null (by decide)
